import Mathlib

/-!
Shallow embedding of the event reactor in
`src/web/containers/Providers/EventHandler.tsx` (jan repository).

The reactor consumes message/model lifecycle events and mutates a state
store (threads, current-thread message list, active model, model load
status, per-thread waiting flags, global generating flag, queued-message
flag, load error). Side effects towards collaborators (persistence
saveThread/addNewMessage, toast, deferred event emission) are recorded in
an explicit effect list. Each handler is a pure function
`StoreState → StoreState × List Effect`.
-/

namespace Jan

/-- MessageStatus enum from the core package: Pending while streaming,
Ready or Error once terminal. -/
inductive MessageStatus where
  | Pending
  | Ready
  | Error
deriving DecidableEq

/-- MessageRequestType enum: Thread for normal turns, Summary for the
internal title-generation turn. The dispatcher treats every non-Summary
value through its default branch; the spec calls it a closed two-way
branch. -/
inductive MessageRequestType where
  | Thread
  | Summary
deriving DecidableEq

/-- One content part of a message; the reactor only ever reads
`content[0]?.text?.value`, modelled as an optional text payload. -/
structure ContentPart where
  text : Option String
deriving DecidableEq

/-- ThreadMessage from the core package, restricted to the fields the
reactor reads. -/
structure ThreadMessage where
  id : String
  thread_id : String
  role : String
  status : MessageStatus
  content : List ContentPart
  type : MessageRequestType
deriving DecidableEq

/-- Thread metadata: an open mapping; the reactor only ever writes the
`lastMessage` key, so it is kept as a distinguished field, with the other
keys carried opaquely. -/
structure Metadata where
  lastMessage : Option String
  extra : List (String × String)
deriving DecidableEq

/-- Thread record, restricted to the fields the reactor reads. -/
structure Thread where
  id : String
  title : String
  metadata : Metadata
deriving DecidableEq

/-- Model parameters: the reactor only ever writes `stream`; other
parameter keys are carried opaquely. -/
structure ModelParams where
  stream : Option Bool
  extra : List (String × String)
deriving DecidableEq

/-- Model record, restricted to the fields the reactor reads. -/
structure Model where
  id : String
  parameters : ModelParams
deriving DecidableEq

/-- Model load status record, `setStateModel` payload:
`\x7bstate: start|stop, loading: bool, model: id\x7d`. -/
structure StateModel where
  state : String
  loading : Bool
  model : String
deriving DecidableEq

/-- One role/content pair of a summarization prompt
(ChatCompletionMessage). -/
structure ChatCompletionMessage where
  role : String
  content : Option String
deriving DecidableEq

/-- Outbound MessageRequest constructed by the title generator. -/
structure MessageRequest where
  id : String
  threadId : String
  type : MessageRequestType
  messages : List ChatCompletionMessage
  model : Model
deriving DecidableEq

/-- Side effects towards external collaborators, recorded instead of
performed: persistence calls, toast, console error, and the deferred
event emission (delay in milliseconds). -/
inductive Effect where
  | saveThread (t : Thread)
  | appendMessage (m : ThreadMessage)
  | emitMessageSent (delayMs : Nat) (req : MessageRequest)
  | toast (title description kind : String)
  | logError (s : String)
deriving DecidableEq

/-- The state store cells the reactor reads and writes, together with the
rolling snapshots its handlers resolve against (thread list, current
thread message list, active model). -/
structure StoreState where
  threads : List Thread
  messages : List ThreadMessage
  activeModel : Option Model
  stateModel : StateModel
  loadModelError : Option String
  queuedMessage : Bool
  waiting : String → Bool
  isGenerating : Bool

/-- `message.content[0]?.text?.value`: the first text content of a
message, if any. -/
def firstText (m : ThreadMessage) : Option String :=
  m.content.head?.bind (fun p => p.text)

/-- Modelled from the spec: the State Store accessor `update message by
(id, thread id) with new content/status` (updateMessageAtom lives outside
src). Replaces content and status of the matching message. -/
def updateMessageIn (msgs : List ThreadMessage) (mid tid : String)
    (content : List ContentPart) (status : MessageStatus) : List ThreadMessage :=
  msgs.map (fun m =>
    if m.id = mid ∧ m.thread_id = tid then
      { m with content := content, status := status }
    else m)

/-- Modelled from the spec: the State Store accessor `update thread
record` (updateThreadAtom lives outside src). Replaces the thread with
the same id. -/
def updateThreadInList (ts : List Thread) (t : Thread) : List Thread :=
  ts.map (fun x => if x.id = t.id then t else x)

/-- Modelled from the spec: the State Store accessor for the per-thread
waiting flag (updateThreadWaitingForResponseAtom lives outside src). -/
def setWaiting (w : String → Bool) (tid : String) (v : Bool) : String → Bool :=
  fun t => if t = tid then v else w t

/-- The metadata merge of the terminal branch:
`\x7b...thread.metadata, ...(messageContent && \x7blastMessage: messageContent\x7d)\x7d` —
lastMessage is overridden only when the text is present and non-empty. -/
def mergeLastMessage (meta : Metadata) (c : Option String) : Metadata :=
  match c with
  | some s => if s = "" then meta else { meta with lastMessage := some s }
  | none => meta

/-- The JavaScript `String.prototype.trim()`: strip leading and trailing
whitespace. Embedded over the character list so that it evaluates inside
the kernel. -/
def jsTrim (s : String) : String :=
  String.mk (((s.data.dropWhile Char.isWhitespace).reverse.dropWhile Char.isWhitespace).reverse)

/-- The fixed summarization instruction. -/
def summarizeFirstPrompt : String :=
  "Summarize the conversation above in 5 words as a title"

/-- The parameters object the title generator builds:
`parameters: \x7bstream: false\x7d` (a wholesale replacement, not a merge). -/
def streamFalseParams : ModelParams :=
  { stream := some false, extra := [] }

/-- The prompt-context entry built from one prior thread message:
`\x7brole: msg.role, content: msg.content[0]?.text.value\x7d`. -/
def toChatMessage (m : ThreadMessage) : ChatCompletionMessage :=
  { role := m.role, content := firstText m }

/-- `generateThreadTitle(message, thread)`: when the thread title trims
to the sentinel placeholder and an active model is set, build a Summary
MessageRequest over the current message-list snapshot plus the fixed
instruction turn, and emit it as a deferred (1000 ms) message-send event.
The active-model and message-list snapshots are those current when the
handler fired (the refs are refreshed by render, not mid-handler), so
they are passed in explicitly. The ulid freshly generated identifier is
modelled as the `freshId` argument. -/
def generateThreadTitle (activeModel : Option Model) (msgs : List ThreadMessage)
    (freshId : String) (message : ThreadMessage) (thread : Thread) : List Effect :=
  match activeModel with
  | some am =>
    if jsTrim thread.title = "New Thread" then
      [Effect.emitMessageSent 1000
        { id := freshId
          threadId := message.thread_id
          type := MessageRequestType.Summary
          messages := msgs.map toChatMessage ++
            [{ role := "user", content := some summarizeFirstPrompt }]
          model := { am with parameters := streamFalseParams } }]
    else []
  | none => []

/-- `updateThreadTitle(message)`: ignore Pending updates; otherwise look
the thread up by id and, when found and the first text content is
non-empty, update the thread record with the new title (metadata kept)
and call saveThread — note the source passes `\x7b...thread\x7d`, the
pre-update thread, to saveThread. -/
def updateThreadTitle (s : StoreState) (message : ThreadMessage) :
    StoreState × List Effect :=
  if message.status = MessageStatus.Pending then (s, [])
  else
    match s.threads.find? (fun e => e.id == message.thread_id), firstText message with
    | some thread, some mc =>
      if mc = "" then (s, [])
      else
        let retitled : Thread := { thread with title := mc, metadata := thread.metadata }
        ({ s with threads := updateThreadInList s.threads retitled },
         [Effect.saveThread thread])
    | some _, none => (s, [])
    | none, _ => (s, [])

/-- `updateThreadMessage(message)`: always store the new content/status;
while Pending, clear the waiting and generating flags only once content
is non-empty, then return; on terminal status clear both flags
unconditionally, then (when the thread is found) merge lastMessage into
its metadata, persist the thread, append the message, and run the
title-generation trigger against the pre-handler snapshots. -/
def updateThreadMessage (s : StoreState) (freshId : String)
    (message : ThreadMessage) : StoreState × List Effect :=
  let newMessages :=
    updateMessageIn s.messages message.id message.thread_id message.content message.status
  let s1 := { s with messages := newMessages }
  if message.status = MessageStatus.Pending then
    if message.content.length ≠ 0 then
      ({ s1 with waiting := setWaiting s1.waiting message.thread_id false,
                 isGenerating := false }, [])
    else (s1, [])
  else
    let s2 := { s1 with waiting := setWaiting s1.waiting message.thread_id false,
                        isGenerating := false }
    match s2.threads.find? (fun e => e.id == message.thread_id) with
    | some thread =>
      let metadata := mergeLastMessage thread.metadata (firstText message)
      let newThread := { thread with metadata := metadata }
      ({ s2 with threads := updateThreadInList s2.threads newThread },
       [Effect.saveThread newThread, Effect.appendMessage message] ++
         generateThreadTitle s.activeModel s.messages freshId message thread)
    | none => (s2, [])

/-- `onMessageResponseUpdate(message)`: dispatch purely on type — Summary
to the title-update procedure, the default branch to the message-update
procedure. -/
def onMessageResponseUpdate (s : StoreState) (freshId : String)
    (message : ThreadMessage) : StoreState × List Effect :=
  match message.type with
  | MessageRequestType.Summary => updateThreadTitle s message
  | MessageRequestType.Thread => updateThreadMessage s freshId message

/-- `onModelReady(model)`: set the active model, toast, and set the model
load status to \x7bstate: stop, loading: false, model: id\x7d. -/
def onModelReady (s : StoreState) (model : Model) : StoreState × List Effect :=
  ({ s with activeModel := some model,
            stateModel := { state := "stop", loading := false, model := model.id } },
   [Effect.toast "Success!" ("Model " ++ model.id ++ " has been started.") "success"])

/-- `onModelInitFailed(res)`: log, set the model load status to
\x7bstate: start, loading: false, model: attemptedId\x7d, record the load
error, clear the queued-message flag. The active model cell is not
touched. -/
def onModelInitFailed (s : StoreState) (err : String) (modelId : String) :
    StoreState × List Effect :=
  ({ s with stateModel := { state := "start", loading := false, model := modelId },
            loadModelError := some err,
            queuedMessage := false },
   [Effect.logError ("Failed to load model: " ++ err)])

/-- The message-send-requested emissions among a list of effects, with
their dispatch delays. -/
def emittedSends (effs : List Effect) : List (Nat × MessageRequest) :=
  effs.filterMap (fun e =>
    match e with
    | Effect.emitMessageSent d r => some (d, r)
    | _ => none)

/-- Number of true-to-false changes along a trace of boolean values. -/
def boolTransitions : List Bool → Nat
  | a :: b :: rest =>
      (if a = true ∧ b = false then 1 else 0) + boolTransitions (b :: rest)
  | _ => 0

/-! ### Concrete fixtures for witnesses and counterexamples -/

/-- Empty metadata record. -/
def meta0 : Metadata := { lastMessage := none, extra := [] }

/-- A downloaded model fixture with a non-trivial parameter map. -/
def am0 : Model := { id := "llama", parameters := { stream := some true, extra := [("temp", "0.7")] } }

/-- A store state with everything empty or cleared. -/
def state0 : StoreState :=
  { threads := [], messages := [], activeModel := none,
    stateModel := { state := "start", loading := false, model := "" },
    loadModelError := none, queuedMessage := false,
    waiting := fun _ => false, isGenerating := false }

/-! ### Theorems -/

/-- Claim C5: for every message-response-updated event of non-Summary type
with terminal (non-Pending) status, the waiting flag of the event thread
and the global generating flag become false, whatever they were before. -/
theorem terminal_update_clears_flags (s : StoreState) (fid : String)
    (m : ThreadMessage) (hT : m.type = MessageRequestType.Thread)
    (hst : m.status ≠ MessageStatus.Pending) :
    (onMessageResponseUpdate s fid m).1.waiting m.thread_id = false ∧
    (onMessageResponseUpdate s fid m).1.isGenerating = false := by
  simp only [onMessageResponseUpdate, hT]
  unfold updateThreadMessage
  simp only [if_neg hst]
  cases hf : (s.threads.find? (fun e => e.id == m.thread_id)) with
  | some thread => simp [hf, setWaiting]
  | none => simp [hf, setWaiting]

/-- Witness for terminal_update_clears_flags at a concrete input. -/
theorem terminal_update_clears_flags_witness :
    (({ id := "m1", thread_id := "t1", role := "assistant",
        status := MessageStatus.Ready, content := [],
        type := MessageRequestType.Thread } : ThreadMessage).type =
          MessageRequestType.Thread ∧
     ({ id := "m1", thread_id := "t1", role := "assistant",
        status := MessageStatus.Ready, content := [],
        type := MessageRequestType.Thread } : ThreadMessage).status ≠
          MessageStatus.Pending) ∧
    ((onMessageResponseUpdate { state0 with waiting := fun _ => true, isGenerating := true } "f1"
        { id := "m1", thread_id := "t1", role := "assistant",
          status := MessageStatus.Ready, content := [],
          type := MessageRequestType.Thread }).1.waiting "t1" = false ∧
     (onMessageResponseUpdate { state0 with waiting := fun _ => true, isGenerating := true } "f1"
        { id := "m1", thread_id := "t1", role := "assistant",
          status := MessageStatus.Ready, content := [],
          type := MessageRequestType.Thread }).1.isGenerating = false) :=
  ⟨⟨rfl, by decide⟩,
   terminal_update_clears_flags _ "f1" _ rfl (by decide)⟩

/-- Claim C4: a Pending non-Summary update always stores the new
content/status; when content is empty the waiting and generating flags
are untouched, when content is non-empty both are cleared; in either
case nothing else changes and no collaborator effect is produced. -/
theorem pending_update_frame (s : StoreState) (fid : String) (m : ThreadMessage)
    (hT : m.type = MessageRequestType.Thread)
    (hp : m.status = MessageStatus.Pending) :
    (onMessageResponseUpdate s fid m).1.messages =
      updateMessageIn s.messages m.id m.thread_id m.content m.status ∧
    (m.content = [] → (onMessageResponseUpdate s fid m).1.waiting = s.waiting ∧
      (onMessageResponseUpdate s fid m).1.isGenerating = s.isGenerating) ∧
    (m.content ≠ [] → (onMessageResponseUpdate s fid m).1.waiting m.thread_id = false ∧
      (onMessageResponseUpdate s fid m).1.isGenerating = false) ∧
    (onMessageResponseUpdate s fid m).2 = [] ∧
    (onMessageResponseUpdate s fid m).1.threads = s.threads ∧
    (onMessageResponseUpdate s fid m).1.activeModel = s.activeModel ∧
    (onMessageResponseUpdate s fid m).1.stateModel = s.stateModel ∧
    (onMessageResponseUpdate s fid m).1.loadModelError = s.loadModelError ∧
    (onMessageResponseUpdate s fid m).1.queuedMessage = s.queuedMessage := by
  by_cases hc : m.content = [] <;>
    simp [onMessageResponseUpdate, hT, updateThreadMessage, hp, hc, setWaiting,
      List.length_eq_zero]

/-- Witness for pending_update_frame at a concrete input. -/
theorem pending_update_frame_witness :
    (({ id := "m1", thread_id := "t1", role := "assistant",
        status := MessageStatus.Pending, content := [{ text := some "He" }],
        type := MessageRequestType.Thread } : ThreadMessage).type =
          MessageRequestType.Thread ∧
     ({ id := "m1", thread_id := "t1", role := "assistant",
        status := MessageStatus.Pending, content := [{ text := some "He" }],
        type := MessageRequestType.Thread } : ThreadMessage).status =
          MessageStatus.Pending) ∧
    ((onMessageResponseUpdate state0 "f1"
        { id := "m1", thread_id := "t1", role := "assistant",
          status := MessageStatus.Pending, content := [{ text := some "He" }],
          type := MessageRequestType.Thread }).2 = []) :=
  ⟨⟨rfl, rfl⟩,
   (pending_update_frame state0 "f1"
      { id := "m1", thread_id := "t1", role := "assistant",
        status := MessageStatus.Pending, content := [{ text := some "He" }],
        type := MessageRequestType.Thread } rfl rfl).2.2.2.1⟩

/-- Claim C7: a terminal non-Summary update whose thread id misses the
snapshot still stores the new content/status, but leaves the thread list
unchanged and produces no persistence call and no emission. -/
theorem terminal_thread_missing_noop (s : StoreState) (fid : String)
    (m : ThreadMessage) (hT : m.type = MessageRequestType.Thread)
    (hst : m.status ≠ MessageStatus.Pending)
    (hf : s.threads.find? (fun e => e.id == m.thread_id) = none) :
    (onMessageResponseUpdate s fid m).1.messages =
      updateMessageIn s.messages m.id m.thread_id m.content m.status ∧
    (onMessageResponseUpdate s fid m).1.threads = s.threads ∧
    (onMessageResponseUpdate s fid m).2 = [] := by
  simp only [onMessageResponseUpdate, hT]
  unfold updateThreadMessage
  simp [if_neg hst, hf]

/-- Witness for terminal_thread_missing_noop at a concrete input. -/
theorem terminal_thread_missing_noop_witness :
    (({ id := "m1", thread_id := "ghost", role := "assistant",
        status := MessageStatus.Ready, content := [{ text := some "Hi" }],
        type := MessageRequestType.Thread } : ThreadMessage).type =
          MessageRequestType.Thread ∧
     ({ id := "m1", thread_id := "ghost", role := "assistant",
        status := MessageStatus.Ready, content := [{ text := some "Hi" }],
        type := MessageRequestType.Thread } : ThreadMessage).status ≠
          MessageStatus.Pending ∧
     state0.threads.find? (fun e => e.id == "ghost") = none) ∧
    ((onMessageResponseUpdate state0 "f1"
        { id := "m1", thread_id := "ghost", role := "assistant",
          status := MessageStatus.Ready, content := [{ text := some "Hi" }],
          type := MessageRequestType.Thread }).1.threads = state0.threads ∧
     (onMessageResponseUpdate state0 "f1"
        { id := "m1", thread_id := "ghost", role := "assistant",
          status := MessageStatus.Ready, content := [{ text := some "Hi" }],
          type := MessageRequestType.Thread }).2 = []) :=
  ⟨⟨rfl, by decide, rfl⟩,
   ⟨(terminal_thread_missing_noop state0 "f1"
       { id := "m1", thread_id := "ghost", role := "assistant",
         status := MessageStatus.Ready, content := [{ text := some "Hi" }],
         type := MessageRequestType.Thread } rfl (by decide) rfl).2.1,
    (terminal_thread_missing_noop state0 "f1"
       { id := "m1", thread_id := "ghost", role := "assistant",
         status := MessageStatus.Ready, content := [{ text := some "Hi" }],
         type := MessageRequestType.Thread } rfl (by decide) rfl).2.2⟩⟩

/-- Claim C9: a model-load-failed event followed by a model-ready event
for a different model id leaves the active model equal to the model-ready
payload and the load status at state stop, loading false, with the ready
model id. -/
theorem model_failed_then_ready_last_write_wins (s : StoreState)
    (err failedId : String) (model : Model) (h : failedId ≠ model.id) :
    (onModelReady (onModelInitFailed s err failedId).1 model).1.activeModel = some model ∧
    (onModelReady (onModelInitFailed s err failedId).1 model).1.stateModel =
      { state := "stop", loading := false, model := model.id } :=
  ⟨rfl, rfl⟩

/-- Witness for model_failed_then_ready_last_write_wins at a concrete
input. -/
theorem model_failed_then_ready_last_write_wins_witness :
    (("mistral" : String) ≠ am0.id) ∧
    ((onModelReady (onModelInitFailed state0 "boom" "mistral").1 am0).1.activeModel =
        some am0 ∧
     (onModelReady (onModelInitFailed state0 "boom" "mistral").1 am0).1.stateModel =
        { state := "stop", loading := false, model := am0.id }) :=
  ⟨by decide, model_failed_then_ready_last_write_wins state0 "boom" "mistral" am0 (by decide)⟩

/-- Claim C10: a Summary-typed update is routed only to the title-update
procedure, which never touches the message store, the waiting flags, the
generating flag or the queued-message flag, and leaves every thread
record identical except possibly its title (same id, same metadata). -/
theorem summary_routing_frame (s : StoreState) (fid : String)
    (m : ThreadMessage) (hT : m.type = MessageRequestType.Summary) :
    onMessageResponseUpdate s fid m = updateThreadTitle s m ∧
    (updateThreadTitle s m).1.messages = s.messages ∧
    (updateThreadTitle s m).1.waiting = s.waiting ∧
    (updateThreadTitle s m).1.isGenerating = s.isGenerating ∧
    (updateThreadTitle s m).1.queuedMessage = s.queuedMessage ∧
    (updateThreadTitle s m).1.activeModel = s.activeModel ∧
    (updateThreadTitle s m).1.stateModel = s.stateModel ∧
    (updateThreadTitle s m).1.loadModelError = s.loadModelError ∧
    ∀ t ∈ (updateThreadTitle s m).1.threads,
      ∃ t0 ∈ s.threads, t.id = t0.id ∧ t.metadata = t0.metadata := by
  refine ⟨by simp [onMessageResponseUpdate, hT], ?_⟩
  unfold updateThreadTitle
  split
  · exact ⟨rfl, rfl, rfl, rfl, rfl, rfl, rfl, fun t ht => ⟨t, ht, rfl, rfl⟩⟩
  · split
    · next thread mc hf hc =>
      split
      · exact ⟨rfl, rfl, rfl, rfl, rfl, rfl, rfl, fun t ht => ⟨t, ht, rfl, rfl⟩⟩
      · next hmc =>
        refine ⟨rfl, rfl, rfl, rfl, rfl, rfl, rfl, fun t ht => ?_⟩
        simp only [updateThreadInList, List.mem_map] at ht
        obtain ⟨x, hx, hxt⟩ := ht
        by_cases hxe : x.id = thread.id
        · refine ⟨thread, List.mem_of_find?_eq_some hf, ?_, ?_⟩ <;>
            simp [← hxt, hxe]
        · refine ⟨x, hx, ?_, ?_⟩ <;> simp [← hxt, hxe]
    · exact ⟨rfl, rfl, rfl, rfl, rfl, rfl, rfl, fun t ht => ⟨t, ht, rfl, rfl⟩⟩
    · exact ⟨rfl, rfl, rfl, rfl, rfl, rfl, rfl, fun t ht => ⟨t, ht, rfl, rfl⟩⟩

/-- Witness for summary_routing_frame at a concrete input. -/
theorem summary_routing_frame_witness :
    (({ id := "m1", thread_id := "t1", role := "assistant",
        status := MessageStatus.Ready, content := [{ text := some "A" }],
        type := MessageRequestType.Summary } : ThreadMessage).type =
          MessageRequestType.Summary) ∧
    ((updateThreadTitle { state0 with threads := [{ id := "t1", title := "Old", metadata := meta0 }] }
        { id := "m1", thread_id := "t1", role := "assistant",
          status := MessageStatus.Ready, content := [{ text := some "A" }],
          type := MessageRequestType.Summary }).1.messages =
      ({ state0 with threads := [{ id := "t1", title := "Old", metadata := meta0 }] } : StoreState).messages) :=
  ⟨rfl,
   (summary_routing_frame { state0 with threads := [{ id := "t1", title := "Old", metadata := meta0 }] } "f1"
      { id := "m1", thread_id := "t1", role := "assistant",
        status := MessageStatus.Ready, content := [{ text := some "A" }],
        type := MessageRequestType.Summary } rfl).2.1⟩

/-- A thread fixture whose title has already been settled away from the
sentinel placeholder. -/
def threadSettled : Thread := { id := "t1", title := "Settled Title", metadata := meta0 }

/-- A thread fixture still carrying the sentinel placeholder title. -/
def threadNew : Thread := { id := "t1", title := "New Thread", metadata := meta0 }

/-- A completed Summary response fixture with text payload A. -/
def summaryRespA : ThreadMessage :=
  { id := "s1", thread_id := "t1", role := "assistant",
    status := MessageStatus.Ready, content := [{ text := some "A" }],
    type := MessageRequestType.Summary }

/-- A completed Summary response fixture with text payload B. -/
def summaryRespB : ThreadMessage :=
  { id := "s2", thread_id := "t1", role := "assistant",
    status := MessageStatus.Ready, content := [{ text := some "B" }],
    type := MessageRequestType.Summary }

/-- After replacing the thread with id `t.id` by `t`, a lookup for the id
that previously found `thread` now finds `t`. -/
theorem find?_updateThreadInList (l : List Thread) (tid : String) (thread t : Thread)
    (h : l.find? (fun e => e.id == tid) = some thread) (ht : t.id = thread.id) :
    (updateThreadInList l t).find? (fun e => e.id == tid) = some t := by
  have htid : thread.id = tid := by
    have := List.find?_some h
    simpa using this
  induction l with
  | nil => simp [List.find?] at h
  | cons x xs ih =>
    by_cases hx : (x.id == tid) = true
    · have hxth : x = thread := by
        rw [@List.find?_cons_of_pos _ (fun e => e.id == tid) x xs hx] at h
        exact Option.some.inj h
      have hxt : x.id = t.id := by rw [hxth, ht]
      have hpt : (t.id == tid) = true := by simp [ht, htid]
      simp only [updateThreadInList, List.map_cons, if_pos hxt]
      exact @List.find?_cons_of_pos _ (fun e => e.id == tid) t
        (List.map (fun x => if x.id = t.id then t else x) xs) hpt
    · have h' : xs.find? (fun e => e.id == tid) = some thread := by
        rw [@List.find?_cons_of_neg _ (fun e => e.id == tid) x xs (by simpa using hx)] at h
        exact h
      have hxt : ¬ (x.id = t.id) := by
        rw [ht, htid]
        intro hc
        simp [hc] at hx
      simp only [updateThreadInList, List.map_cons, if_neg hxt]
      rw [@List.find?_cons_of_neg _ (fun e => e.id == tid) x
        (List.map (fun x => if x.id = t.id then t else x) xs) (by simpa using hx)]
      exact ih h'

/-- Claim C1 counterexample: the title-update procedure carries no
`title = sentinel` gate. Starting from a thread whose title is already
`Settled Title` (not the placeholder), a completed Summary response still
overwrites the title, and a second completed Summary response overwrites
it again — both responses change the title, not only the first. -/
theorem title_update_fires_without_sentinel_cex :
    threadSettled.title ≠ "New Thread" ∧
    (updateThreadTitle { state0 with threads := [threadSettled] } summaryRespA).1.threads.map
        Thread.title = ["A"] ∧
    (updateThreadTitle
        (updateThreadTitle { state0 with threads := [threadSettled] } summaryRespA).1
        summaryRespB).1.threads.map Thread.title = ["B"] := by
  exact ⟨by decide, by decide, by decide⟩

/-- Claim C1 amended: the title-update procedure is not gated on the
current title — every completed Summary response with non-empty first
text overwrites the title of the (found) thread, so of two consecutive
completed Summary responses for the same thread each one changes the
title, the second ending up as the stored title. Only the generation of
Summary requests is gated on the sentinel placeholder. -/
theorem title_update_applies_to_every_completed_summary (s : StoreState)
    (m1 m2 : ThreadMessage) (thread : Thread) (c1 c2 : String)
    (h1 : m1.status ≠ MessageStatus.Pending)
    (h2 : m2.status ≠ MessageStatus.Pending)
    (hf : s.threads.find? (fun e => e.id == m1.thread_id) = some thread)
    (hid : m2.thread_id = m1.thread_id)
    (hc1 : firstText m1 = some c1) (hne1 : c1 ≠ "")
    (hc2 : firstText m2 = some c2) (hne2 : c2 ≠ "") :
    (updateThreadTitle s m1).1.threads.find? (fun e => e.id == m1.thread_id) =
      some { thread with title := c1 } ∧
    (updateThreadTitle (updateThreadTitle s m1).1 m2).1.threads.find?
        (fun e => e.id == m1.thread_id) =
      some { thread with title := c2 } := by
  have hs1 : (updateThreadTitle s m1).1.threads =
      updateThreadInList s.threads ({ thread with title := c1 }) := by
    unfold updateThreadTitle
    rw [if_neg h1, hf, hc1]
    simp [hne1]
  have hfind1 : (updateThreadTitle s m1).1.threads.find? (fun e => e.id == m1.thread_id) =
      some { thread with title := c1 } := by
    rw [hs1]
    exact find?_updateThreadInList s.threads m1.thread_id thread _ hf rfl
  refine ⟨hfind1, ?_⟩
  have hfind1' : (updateThreadTitle s m1).1.threads.find? (fun e => e.id == m2.thread_id) =
      some { thread with title := c1 } := by rw [hid]; exact hfind1
  generalize hgen : (updateThreadTitle s m1).1 = s1 at hfind1' ⊢
  have hs2 : (updateThreadTitle s1 m2).1.threads =
      updateThreadInList s1.threads ({ thread with title := c2 }) := by
    unfold updateThreadTitle
    rw [if_neg h2, hfind1', hc2]
    simp [hne2]
  rw [hs2, ← hid]
  exact find?_updateThreadInList _ m2.thread_id ({ thread with title := c1 }) _ hfind1' rfl

/-- Witness for title_update_applies_to_every_completed_summary at a
concrete input. -/
theorem title_update_applies_to_every_completed_summary_witness :
    (summaryRespA.status ≠ MessageStatus.Pending ∧
     summaryRespB.status ≠ MessageStatus.Pending ∧
     ({ state0 with threads := [threadSettled] } : StoreState).threads.find?
        (fun e => e.id == summaryRespA.thread_id) = some threadSettled ∧
     summaryRespB.thread_id = summaryRespA.thread_id ∧
     firstText summaryRespA = some "A" ∧ ("A" : String) ≠ "" ∧
     firstText summaryRespB = some "B" ∧ ("B" : String) ≠ "") ∧
    ((updateThreadTitle { state0 with threads := [threadSettled] } summaryRespA).1.threads.find?
        (fun e => e.id == summaryRespA.thread_id) =
      some { threadSettled with title := "A" } ∧
     (updateThreadTitle
        (updateThreadTitle { state0 with threads := [threadSettled] } summaryRespA).1
        summaryRespB).1.threads.find? (fun e => e.id == summaryRespA.thread_id) =
      some { threadSettled with title := "B" }) :=
  ⟨⟨by decide, by decide, by decide, rfl, rfl, by decide, rfl, by decide⟩,
   title_update_applies_to_every_completed_summary
     { state0 with threads := [threadSettled] } summaryRespA summaryRespB threadSettled "A" "B"
     (by decide) (by decide) (by decide) rfl rfl (by decide) rfl (by decide)⟩

/-- Claim C2, evaluated at the failing input: a completed Summary
response with text `Chat about Lean` for a thread titled with the
sentinel updates the stored thread title to the new text, but the
saveThread persistence call receives the pre-update thread, still
carrying the old title — the persisted thread does not carry the new
title. -/
theorem saveThread_receives_stale_title :
    (updateThreadTitle { state0 with threads := [threadNew] }
        { id := "s1", thread_id := "t1", role := "assistant",
          status := MessageStatus.Ready, content := [{ text := some "Chat about Lean" }],
          type := MessageRequestType.Summary }).1.threads.map Thread.title =
      ["Chat about Lean"] ∧
    (updateThreadTitle { state0 with threads := [threadNew] }
        { id := "s1", thread_id := "t1", role := "assistant",
          status := MessageStatus.Ready, content := [{ text := some "Chat about Lean" }],
          type := MessageRequestType.Summary }).2 =
      [Effect.saveThread { id := "t1", title := "New Thread", metadata := meta0 }] := by
  exact ⟨by decide, by decide⟩

/-- The sentinel placeholder is fixed by trimming. -/
theorem jsTrim_sentinel : jsTrim "New Thread" = "New Thread" := by decide

/-- Claim C3: a completed non-Summary terminal message for a thread whose
title is the sentinel placeholder, with an active model set, produces
exactly one deferred (1000 ms) message-send-requested event carrying a
Summary-typed MessageRequest with the supplied fresh id, the active model
with its parameters replaced by stream false, and the prior message-list
prompt followed by the fixed summarization instruction as a user turn. -/
theorem summary_request_emission (s : StoreState) (fid : String)
    (m : ThreadMessage) (thread : Thread) (am : Model)
    (hT : m.type = MessageRequestType.Thread)
    (hst : m.status ≠ MessageStatus.Pending)
    (hf : s.threads.find? (fun e => e.id == m.thread_id) = some thread)
    (ht : thread.title = "New Thread")
    (ha : s.activeModel = some am) :
    emittedSends (onMessageResponseUpdate s fid m).2 =
      [(1000,
        { id := fid
          threadId := m.thread_id
          type := MessageRequestType.Summary
          messages := s.messages.map toChatMessage ++
            [{ role := "user", content := some summarizeFirstPrompt }]
          model := { am with parameters := streamFalseParams } })] := by
  simp only [onMessageResponseUpdate, hT]
  unfold updateThreadMessage
  simp only [if_neg hst]
  split
  · next thread' heq =>
    have heq' : s.threads.find? (fun e => e.id == m.thread_id) = some thread' := heq
    have hth : thread = thread' := Option.some.inj (hf.symm.trans heq')
    subst hth
    simp [generateThreadTitle, ha, ht, jsTrim_sentinel, emittedSends]
  · next heq =>
    have heq' : s.threads.find? (fun e => e.id == m.thread_id) = none := heq
    rw [hf] at heq'
    exact absurd heq' (by simp)

/-- Witness for summary_request_emission at a concrete input. -/
theorem summary_request_emission_witness :
    (({ id := "m1", thread_id := "t1", role := "assistant",
        status := MessageStatus.Ready, content := [{ text := some "Hi" }],
        type := MessageRequestType.Thread } : ThreadMessage).type =
          MessageRequestType.Thread ∧
     ({ id := "m1", thread_id := "t1", role := "assistant",
        status := MessageStatus.Ready, content := [{ text := some "Hi" }],
        type := MessageRequestType.Thread } : ThreadMessage).status ≠
          MessageStatus.Pending ∧
     ({ state0 with threads := [threadNew], activeModel := some am0 } : StoreState).threads.find?
        (fun e => e.id == "t1") = some threadNew ∧
     threadNew.title = "New Thread" ∧
     ({ state0 with threads := [threadNew], activeModel := some am0 } : StoreState).activeModel =
        some am0) ∧
    emittedSends (onMessageResponseUpdate
        { state0 with threads := [threadNew], activeModel := some am0 } "fresh1"
        { id := "m1", thread_id := "t1", role := "assistant",
          status := MessageStatus.Ready, content := [{ text := some "Hi" }],
          type := MessageRequestType.Thread }).2 =
      [(1000,
        { id := "fresh1"
          threadId := "t1"
          type := MessageRequestType.Summary
          messages := [{ role := "user", content := some summarizeFirstPrompt }]
          model := { am0 with parameters := streamFalseParams } })] :=
  ⟨⟨rfl, by decide, rfl, rfl, rfl⟩,
   summary_request_emission { state0 with threads := [threadNew], activeModel := some am0 }
     "fresh1"
     { id := "m1", thread_id := "t1", role := "assistant",
       status := MessageStatus.Ready, content := [{ text := some "Hi" }],
       type := MessageRequestType.Thread } threadNew am0 rfl (by decide) rfl rfl rfl⟩

/-- Updating a stored message by matching id and thread id maps the
matching entry to its updated version, which therefore belongs to the
updated list. -/
theorem mem_updateMessageIn (l : List ThreadMessage) (m0 : ThreadMessage)
    (mid tid : String) (c : List ContentPart) (st : MessageStatus)
    (hm : m0 ∈ l) (h1 : m0.id = mid) (h2 : m0.thread_id = tid) :
    ({ m0 with content := c, status := st }) ∈ updateMessageIn l mid tid c st := by
  unfold updateMessageIn
  refine List.mem_map.mpr ⟨m0, hm, ?_⟩
  rw [if_pos ⟨h1, h2⟩]

/-- On terminal status, the message-update procedure always ends with the
waiting flag of the event thread cleared, whether or not the thread is
found. -/
theorem updateThreadMessage_terminal_waiting (s : StoreState) (fid : String)
    (m : ThreadMessage) (hst : m.status ≠ MessageStatus.Pending) :
    (updateThreadMessage s fid m).1.waiting = setWaiting s.waiting m.thread_id false := by
  unfold updateThreadMessage
  simp only [if_neg hst]
  split <;> rfl

/-- On terminal status, the message-update procedure always stores the
new content and status, whether or not the thread is found. -/
theorem updateThreadMessage_terminal_messages (s : StoreState) (fid : String)
    (m : ThreadMessage) (hst : m.status ≠ MessageStatus.Pending) :
    (updateThreadMessage s fid m).1.messages =
      updateMessageIn s.messages m.id m.thread_id m.content m.status := by
  unfold updateThreadMessage
  simp only [if_neg hst]
  split <;> rfl

/-- First streamed chunk fixture: Pending with content `He`. -/
def pendingHe (mid tid : String) : ThreadMessage :=
  { id := mid, thread_id := tid, role := "assistant",
    status := MessageStatus.Pending, content := [{ text := some "He" }],
    type := MessageRequestType.Thread }

/-- Second streamed chunk fixture: Pending with content `Hello`. -/
def pendingHello (mid tid : String) : ThreadMessage :=
  { id := mid, thread_id := tid, role := "assistant",
    status := MessageStatus.Pending, content := [{ text := some "Hello" }],
    type := MessageRequestType.Thread }

/-- Terminal fixture: Ready with content `Hello world`. -/
def readyHelloWorld (mid tid : String) : ThreadMessage :=
  { id := mid, thread_id := tid, role := "assistant",
    status := MessageStatus.Ready, content := [{ text := some "Hello world" }],
    type := MessageRequestType.Thread }

/-- The three intermediate states reached by feeding the dispatcher the
event sequence Pending(He), Pending(Hello), Ready(Hello world) for one
message id. -/
def feedStream (s : StoreState) (mid tid f1 f2 f3 : String) :
    StoreState × StoreState × StoreState :=
  let s1 := (onMessageResponseUpdate s f1 (pendingHe mid tid)).1
  let s2 := (onMessageResponseUpdate s1 f2 (pendingHello mid tid)).1
  let s3 := (onMessageResponseUpdate s2 f3 (readyHelloWorld mid tid)).1
  (s1, s2, s3)

/-- Claim C6: feeding Pending(He), Pending(Hello), Ready(Hello world) for
one message id, starting from a waiting thread, makes exactly one
true-to-false change of the waiting flag along the trace, occurring at
the first (non-empty) Pending update, and the stored message ends with
content `Hello world` and status Ready. -/
theorem streaming_roundtrip (s : StoreState) (mid tid f1 f2 f3 : String)
    (m0 : ThreadMessage) (hw : s.waiting tid = true)
    (hm : m0 ∈ s.messages) (hid : m0.id = mid) (htid : m0.thread_id = tid) :
    boolTransitions
      [s.waiting tid,
       (feedStream s mid tid f1 f2 f3).1.waiting tid,
       (feedStream s mid tid f1 f2 f3).2.1.waiting tid,
       (feedStream s mid tid f1 f2 f3).2.2.waiting tid] = 1 ∧
    (feedStream s mid tid f1 f2 f3).1.waiting tid = false ∧
    ({ m0 with content := [{ text := some "Hello world" }], status := MessageStatus.Ready })
      ∈ (feedStream s mid tid f1 f2 f3).2.2.messages := by
  have w1 : (feedStream s mid tid f1 f2 f3).1.waiting tid = false := by
    show setWaiting s.waiting tid false tid = false
    simp [setWaiting]
  have w2 : (feedStream s mid tid f1 f2 f3).2.1.waiting tid = false := by
    show setWaiting (setWaiting s.waiting tid false) tid false tid = false
    simp [setWaiting]
  have w3 : (feedStream s mid tid f1 f2 f3).2.2.waiting tid = false := by
    have hrw : (feedStream s mid tid f1 f2 f3).2.2.waiting =
        setWaiting (feedStream s mid tid f1 f2 f3).2.1.waiting tid false :=
      updateThreadMessage_terminal_waiting _ f3 (readyHelloWorld mid tid) (by simp [readyHelloWorld])
    rw [hrw]
    simp [setWaiting]
  refine ⟨?_, w1, ?_⟩
  · rw [hw, w1, w2, w3]
    rfl
  · have hm1 : ({ m0 with content := [{ text := some "He" }], status := MessageStatus.Pending })
        ∈ (feedStream s mid tid f1 f2 f3).1.messages := by
      show _ ∈ updateMessageIn s.messages mid tid [{ text := some "He" }] MessageStatus.Pending
      exact mem_updateMessageIn s.messages m0 mid tid _ _ hm hid htid
    have hm2 : ({ m0 with content := [{ text := some "Hello" }], status := MessageStatus.Pending })
        ∈ (feedStream s mid tid f1 f2 f3).2.1.messages := by
      show _ ∈ updateMessageIn (feedStream s mid tid f1 f2 f3).1.messages mid tid
        [{ text := some "Hello" }] MessageStatus.Pending
      exact mem_updateMessageIn _
        ({ m0 with content := [{ text := some "He" }], status := MessageStatus.Pending })
        mid tid _ _ hm1 hid htid
    have hrw : (feedStream s mid tid f1 f2 f3).2.2.messages =
        updateMessageIn (feedStream s mid tid f1 f2 f3).2.1.messages mid tid
          [{ text := some "Hello world" }] MessageStatus.Ready :=
      updateThreadMessage_terminal_messages _ f3 (readyHelloWorld mid tid) (by simp [readyHelloWorld])
    rw [hrw]
    exact mem_updateMessageIn _
      ({ m0 with content := [{ text := some "Hello" }], status := MessageStatus.Pending })
      mid tid _ _ hm2 hid htid

/-- Witness for streaming_roundtrip at a concrete input. -/
theorem streaming_roundtrip_witness :
    (({ state0 with
          messages := [{ id := "m1", thread_id := "t1", role := "assistant",
                         status := MessageStatus.Pending, content := [],
                         type := MessageRequestType.Thread }],
          waiting := fun _ => true } : StoreState).waiting "t1" = true ∧
     ({ id := "m1", thread_id := "t1", role := "assistant",
        status := MessageStatus.Pending, content := [],
        type := MessageRequestType.Thread } : ThreadMessage) ∈
       ({ state0 with
            messages := [{ id := "m1", thread_id := "t1", role := "assistant",
                           status := MessageStatus.Pending, content := [],
                           type := MessageRequestType.Thread }],
            waiting := fun _ => true } : StoreState).messages) ∧
    ({ id := "m1", thread_id := "t1", role := "assistant",
       status := MessageStatus.Ready, content := [{ text := some "Hello world" }],
       type := MessageRequestType.Thread } : ThreadMessage) ∈
      (feedStream
        { state0 with
            messages := [{ id := "m1", thread_id := "t1", role := "assistant",
                           status := MessageStatus.Pending, content := [],
                           type := MessageRequestType.Thread }],
            waiting := fun _ => true } "m1" "t1" "f1" "f2" "f3").2.2.messages :=
  ⟨⟨rfl, List.mem_singleton.mpr rfl⟩,
   (streaming_roundtrip
      { state0 with
          messages := [{ id := "m1", thread_id := "t1", role := "assistant",
                         status := MessageStatus.Pending, content := [],
                         type := MessageRequestType.Thread }],
          waiting := fun _ => true } "m1" "t1" "f1" "f2" "f3"
      { id := "m1", thread_id := "t1", role := "assistant",
        status := MessageStatus.Pending, content := [],
        type := MessageRequestType.Thread }
      rfl (List.mem_singleton.mpr rfl) rfl rfl).2.2⟩

/-- A thread fixture whose title differs from the sentinel placeholder
but trims to it (trailing space). -/
def threadTrailing : Thread := { id := "t1", title := "New Thread ", metadata := meta0 }

/-- Claim C8 counterexample: the title-generation gate compares the
whitespace-trimmed title to the sentinel. A thread titled `New Thread `
(trailing space) does not equal the sentinel placeholder, yet completing
a non-Summary terminal message for it with an active model set still
produces one message-send-requested event. -/
theorem title_gate_trim_cex :
    threadTrailing.title ≠ "New Thread" ∧
    (emittedSends (onMessageResponseUpdate
        { state0 with threads := [threadTrailing], activeModel := some am0 } "fid"
        { id := "m1", thread_id := "t1", role := "assistant",
          status := MessageStatus.Ready, content := [{ text := some "Hi" }],
          type := MessageRequestType.Thread }).2).length = 1 := by
  exact ⟨by decide, by decide⟩

/-- Claim C8 amended: the trigger stays silent when no active model is
set, and likewise when the found thread has a title that does not trim to
the sentinel placeholder — in both cases a completed non-Summary terminal
message produces zero message-send-requested events. -/
theorem no_emission_when_gate_fails (s : StoreState) (fid : String)
    (m : ThreadMessage) (thread : Thread)
    (hT : m.type = MessageRequestType.Thread)
    (hst : m.status ≠ MessageStatus.Pending) :
    (s.activeModel = none → emittedSends (onMessageResponseUpdate s fid m).2 = []) ∧
    (s.threads.find? (fun e => e.id == m.thread_id) = some thread →
      jsTrim thread.title ≠ "New Thread" →
      emittedSends (onMessageResponseUpdate s fid m).2 = []) := by
  constructor
  · intro ha
    simp only [onMessageResponseUpdate, hT]
    unfold updateThreadMessage
    simp only [if_neg hst]
    split
    · next thread' heq => simp [generateThreadTitle, ha, emittedSends]
    · simp [emittedSends]
  · intro hf htr
    simp only [onMessageResponseUpdate, hT]
    unfold updateThreadMessage
    simp only [if_neg hst]
    split
    · next thread' heq =>
      have heq' : s.threads.find? (fun e => e.id == m.thread_id) = some thread' := heq
      have hth : thread = thread' := Option.some.inj (hf.symm.trans heq')
      subst hth
      cases ha : s.activeModel with
      | none => simp [generateThreadTitle, ha, emittedSends]
      | some am => simp [generateThreadTitle, ha, htr, emittedSends]
    · simp [emittedSends]

/-- Witness for no_emission_when_gate_fails at a concrete input
exercising both conjuncts: no active model is set and the stored thread
title does not trim to the sentinel. -/
theorem no_emission_when_gate_fails_witness :
    (({ id := "m1", thread_id := "t1", role := "assistant",
        status := MessageStatus.Ready, content := [{ text := some "Hi" }],
        type := MessageRequestType.Thread } : ThreadMessage).type =
          MessageRequestType.Thread ∧
     ({ id := "m1", thread_id := "t1", role := "assistant",
        status := MessageStatus.Ready, content := [{ text := some "Hi" }],
        type := MessageRequestType.Thread } : ThreadMessage).status ≠
          MessageStatus.Pending ∧
     ({ state0 with threads := [threadSettled] } : StoreState).activeModel = none ∧
     ({ state0 with threads := [threadSettled] } : StoreState).threads.find?
        (fun e => e.id == "t1") = some threadSettled ∧
     jsTrim threadSettled.title ≠ "New Thread") ∧
    (emittedSends (onMessageResponseUpdate { state0 with threads := [threadSettled] } "fid"
        { id := "m1", thread_id := "t1", role := "assistant",
          status := MessageStatus.Ready, content := [{ text := some "Hi" }],
          type := MessageRequestType.Thread }).2 = [] ∧
     emittedSends (onMessageResponseUpdate { state0 with threads := [threadSettled] } "fid"
        { id := "m1", thread_id := "t1", role := "assistant",
          status := MessageStatus.Ready, content := [{ text := some "Hi" }],
          type := MessageRequestType.Thread }).2 = []) :=
  ⟨⟨rfl, by decide, rfl, rfl, by decide⟩,
   ⟨(no_emission_when_gate_fails { state0 with threads := [threadSettled] } "fid"
       { id := "m1", thread_id := "t1", role := "assistant",
         status := MessageStatus.Ready, content := [{ text := some "Hi" }],
         type := MessageRequestType.Thread } threadSettled rfl (by decide)).1 rfl,
    (no_emission_when_gate_fails { state0 with threads := [threadSettled] } "fid"
       { id := "m1", thread_id := "t1", role := "assistant",
         status := MessageStatus.Ready, content := [{ text := some "Hi" }],
         type := MessageRequestType.Thread } threadSettled rfl (by decide)).2 rfl (by decide)⟩⟩

end Jan
